import Mathlib

/-!
Verification of the DeepGuard media-shield detection pipeline.

The core of the repository is the Reality Defender integration: file validation
and upload orchestration (`src/lib/mediaService.ts`, class `MediaService`)
and two Supabase edge-function variants of the same pipeline (the two
`serve` blocks of the reality-defender-analyze function).  All numeric
values are modelled as rationals (JS numbers), JSON objects as structures
whose optional keys are `Option` fields, and `x.toFixed(2)` as rounding to
two decimal places.
-/

/-- JS `parseFloat(x.toFixed(2))`: round to two decimal places
(nearest, ties toward plus infinity, matching the ECMAScript choice of the
larger candidate integer). -/
def round2 (q : ℚ) : ℚ := (⌊100 * q + 1/2⌋ : ℤ) / 100

/-- JS `parseFloat(x.toFixed(1))`: round to one decimal place. -/
def round1 (q : ℚ) : ℚ := (⌊10 * q + 1/2⌋ : ℤ) / 10

/-- JS `Math.max(0, Math.min(100, x))`. -/
def clamp100 (q : ℚ) : ℚ := max 0 (min 100 q)

/-- A rational that prints with at most two decimal places. -/
def TwoDecimal (q : ℚ) : Prop := ∃ n : ℤ, q = n / 100

theorem round2_twoDecimal (q : ℚ) : TwoDecimal (round2 q) :=
  ⟨⌊100 * q + 1/2⌋, rfl⟩

theorem round2_intCast (n : ℤ) : round2 (n : ℚ) = n := by
  have h0 : ⌊(1/2 : ℚ)⌋ = 0 := by
    rw [Int.floor_eq_zero_iff]
    constructor <;> norm_num
  have h : (100 : ℚ) * n + 1/2 = ((100 * n : ℤ) : ℚ) + (1/2 : ℚ) := by push_cast; ring
  rw [round2, h, Int.floor_int_add, h0]
  push_cast
  ring

theorem round2_natCast (n : ℕ) : round2 (n : ℚ) = n := by
  have := round2_intCast (n : ℤ)
  push_cast at this
  exact this

theorem round2_nonneg {q : ℚ} (h : 0 ≤ q) : 0 ≤ round2 q := by
  rw [round2]
  have : (0 : ℤ) ≤ ⌊100 * q + 1/2⌋ := by
    rw [Int.le_floor]
    push_cast
    linarith
  positivity

theorem round2_le_100 {q : ℚ} (h : q ≤ 100) : round2 q ≤ 100 := by
  rw [round2]
  have h1 : (⌊100 * q + 1/2⌋ : ℚ) ≤ 100 * q + 1/2 := Int.floor_le _
  have h2 : ⌊100 * q + 1/2⌋ < 10001 := by
    have : ((⌊100 * q + 1/2⌋ : ℤ) : ℚ) < 10001 := by linarith
    exact_mod_cast this
  have h3 : ⌊100 * q + 1/2⌋ ≤ 10000 := by omega
  have h4 : ((⌊100 * q + 1/2⌋ : ℤ) : ℚ) ≤ 10000 := by exact_mod_cast h3
  linarith

theorem clamp100_mem (q : ℚ) : 0 ≤ clamp100 q ∧ clamp100 q ≤ 100 := by
  unfold clamp100
  refine ⟨le_max_left 0 _, max_le (by norm_num) (min_le_left _ _)⟩

theorem clamp100_twoDecimal {q : ℚ} (h : TwoDecimal q) : TwoDecimal (clamp100 q) := by
  obtain ⟨n, rfl⟩ := h
  unfold clamp100
  rcases le_total ((n : ℚ) / 100) 100 with h1 | h1
  · rw [min_eq_right h1]
    rcases le_total 0 ((n : ℚ) / 100) with h0 | h0
    · rw [max_eq_right h0]
      exact ⟨n, rfl⟩
    · rw [max_eq_left h0]
      exact ⟨0, by norm_num⟩
  · rw [min_eq_left h1, max_eq_right (by norm_num : (0:ℚ) ≤ 100)]
    exact ⟨10000, by norm_num⟩

theorem clamp100_eq_self {q : ℚ} (h0 : 0 ≤ q) (h1 : q ≤ 100) : clamp100 q = q := by
  unfold clamp100
  rw [min_eq_right h1, max_eq_right h0]

/-- JS `s.startsWith(p)`, on the character lists of the strings. -/
def strStartsWith (s p : String) : Bool := p.toList.isPrefixOf s.toList

/-- JS `sub` occurs as a contiguous substring of `s` (`s.includes(sub)`). -/
def charsInfixOf (sub : List Char) : List Char → Bool
  | [] => sub.isEmpty
  | c :: rest => sub.isPrefixOf (c :: rest) || charsInfixOf sub rest

/-- JS `s.includes(sub)` (substring containment), on character lists. -/
def strIncludes (s sub : String) : Bool := charsInfixOf sub.toList s.toList

/-- JS `s.toLowerCase()` (ASCII case folding, as used on the classification and status strings of the provider), producing the character list. -/
def strToLowerChars (s : String) : List Char := s.toList.map Char.toLower

/-- JS `s.toLowerCase().includes(sub)`, the pattern used by both
normalizer variants on classification and status strings. -/
def lowerIncludes (s sub : String) : Bool := charsInfixOf sub.toList (strToLowerChars s)

/-- Case-insensitive vocabulary test of the `classification` string
branch, identical in both normalizer variants:
`includes("real") || includes("authentic") || includes("genuine")`. -/
def isRealVocab (s : String) : Bool :=
  lowerIncludes s "real" || lowerIncludes s "authentic" || lowerIncludes s "genuine"

/-- `includes("fake") || includes("deepfake") || includes("manipulated")`. -/
def isFakeVocab (s : String) : Bool :=
  lowerIncludes s "fake" || lowerIncludes s "deepfake" || lowerIncludes s "manipulated"

/-- The three-way verdict stored in `analysis_results.classification`. -/
inductive Classification where
  | authentic
  | suspicious
  | deepfake
deriving DecidableEq, Repr

/-- The threshold block shared by both current normalizer variants
(`mediaService.ts` lines 486-493 and the second edge function):
confidence ≥ 75 → authentic, ≥ 40 → suspicious, otherwise deepfake. -/
def classifyThresholds (c : ℚ) : Classification :=
  if 75 ≤ c then .authentic
  else if 40 ≤ c then .suspicious
  else .deepfake

theorem classifyThresholds_coherent (c : ℚ) :
    (classifyThresholds c = .authentic ↔ 75 ≤ c) ∧
    (classifyThresholds c = .suspicious ↔ 40 ≤ c ∧ c < 75) ∧
    (classifyThresholds c = .deepfake ↔ c < 40) := by
  unfold classifyThresholds
  rcases le_or_lt 75 c with h1 | h1
  · rw [if_pos h1]
    refine ⟨⟨fun _ => h1, fun _ => rfl⟩, ?_, ?_⟩
    · constructor
      · intro hEq
        exact absurd hEq (by simp)
      · rintro ⟨-, hlt⟩
        exact absurd h1 (not_le.mpr hlt)
    · constructor
      · intro hEq
        exact absurd hEq (by simp)
      · intro hlt
        exact absurd h1 (not_le.mpr (hlt.trans_le (by norm_num)))
  · rw [if_neg (not_le.mpr h1)]
    rcases le_or_lt 40 c with h2 | h2
    · rw [if_pos h2]
      refine ⟨?_, ⟨fun _ => ⟨h2, h1⟩, fun _ => rfl⟩, ?_⟩
      · constructor
        · intro hEq
          exact absurd hEq (by simp)
        · intro hge
          exact absurd hge (not_le.mpr h1)
      · constructor
        · intro hEq
          exact absurd hEq (by simp)
        · intro hlt
          exact absurd h2 (not_le.mpr hlt)
    · rw [if_neg (not_le.mpr h2)]
      refine ⟨?_, ?_, ⟨fun _ => h2, fun _ => rfl⟩⟩
      · constructor
        · intro hEq
          exact absurd hEq (by simp)
        · intro hge
          exact absurd hge (not_le.mpr h1)
      · constructor
        · intro hEq
          exact absurd hEq (by simp)
        · rintro ⟨hge, -⟩
          exact absurd hge (not_le.mpr h2)

example : strStartsWith "video/mp4" "image/" = false := by decide
example : lowerIncludes "REAL_media" "real" = true := by decide
example : round2 (9/10 * 100) = 90 := by
  rw [show (9/10 * 100 : ℚ) = ((90 : ℤ) : ℚ) by norm_num, round2_intCast]
  norm_num

/-- One heatmap rectangle (normalized coordinates), as produced or passed
through by `generateHeatmapData`.  The optional `manipulation_score` and
`note` keys appear only on synthesized regions. -/
structure HeatmapRegion where
  x : ℚ
  y : ℚ
  width : ℚ
  height : ℚ
  confidence : ℚ
  type : String
  manipulation_score : Option ℚ := none
  note : Option String := none
deriving DecidableEq, Repr

/-- The heatmap payload: the `regions` list plus the flag keys the code
sets on the various branches (a key absent from the object literal of a branch
is modelled as `false` / `none`). -/
structure HeatmapData where
  regions : List HeatmapRegion
  confidence_threshold : ℚ
  api_generated : Bool := false
  generated : Bool := false
  based_on_manipulation_scores : Bool := false
  synthetic : Bool := false
  warning : Option String := none
deriving DecidableEq, Repr

/-- The `details` object built by `extractManipulationDetails`. -/
structure ManipulationDetails where
  overall_score : ℚ
  face_manipulation : ℚ
  background_manipulation : ℚ
  lighting_inconsistencies : ℚ
  compression_artifacts : ℚ
deriving DecidableEq, Repr

/-- Return shape of `parseRealityDefenderResponse` in both variants. -/
structure ParsedResult where
  confidence_score : ℚ
  classification : Classification
  heatmap_data : HeatmapData
  manipulation_details : Option ManipulationDetails
deriving DecidableEq, Repr

/-!
## Second edge-function variant

The second `serve` block of the reality-defender-analyze edge function:
`parseRealityDefenderResponse`, `generateHeatmapData` and
`extractManipulationDetails` operating on the provider payload
`RealityDefenderResponse` (a `result` object with many optional keys).
-/

namespace EdgeV2

/-- The optional keys of `RealityDefenderResponse.result` probed by the
normalizer of the second edge function. -/
structure RDResultData where
  score : Option ℚ := none
  confidence : Option ℚ := none
  fake_probability : Option ℚ := none
  real_probability : Option ℚ := none
  classification : Option String := none
  manipulation_score : Option ℚ := none
  authenticity_score : Option ℚ := none
  probability : Option ℚ := none
  authenticity : Option ℚ := none
  status : Option String := none
  face_manipulation : Option ℚ := none
  background_manipulation : Option ℚ := none
  lighting_inconsistencies : Option ℚ := none
  compression_artifacts : Option ℚ := none
  regions : Option (List HeatmapRegion) := none
deriving DecidableEq, Repr

/-- The provider response: `result` may be absent (`if (result.result)`). -/
structure RDResponse where
  result : Option RDResultData := none
deriving DecidableEq, Repr

/-- The else-if chain over the six numeric confidence fields
(second edge function, comment "Priority order: confidence >
authenticity_score > score > fake_probability > manipulation_score"):
first present field wins; `none` when no field is present. -/
def chainConfidence (d : RDResultData) : Option ℚ :=
  match d.confidence with
  | some c => some (round2 (c * 100))
  | none =>
  match d.authenticity_score with
  | some a => some (round2 (a * 100))
  | none =>
  match d.score with
  | some s => some (if s ≤ 1 then round2 (s * 100) else round2 s)
  | none =>
  match d.fake_probability with
  | some f => some (round2 (100 - f * 100))
  | none =>
  match d.real_probability with
  | some r => some (round2 (r * 100))
  | none =>
  match d.manipulation_score with
  | some m => some (round2 (100 - m * 100))
  | none => none

/-- Status-string vocabulary: `includes("authentic") || includes("real")
|| includes("genuine")`. -/
def statusRealVocab (s : String) : Bool :=
  lowerIncludes s "authentic" || lowerIncludes s "real" || lowerIncludes s "genuine"

/-- `includes("manipulated") || includes("fake") || includes("deepfake")`. -/
def statusFakeVocab (s : String) : Bool :=
  lowerIncludes s "manipulated" || lowerIncludes s "fake" || lowerIncludes s "deepfake"

/-- "Additional field checks": the `probability` key, when present,
overwrites the chained confidence (scale auto-detected). -/
def probabilityAdjust (d : RDResultData) (c : ℚ) : ℚ :=
  match d.probability with
  | some p => if p ≤ 1 then round2 (p * 100) else round2 p
  | none => c

/-- The `authenticity` key, when present, overwrites the confidence. -/
def authenticityAdjust (d : RDResultData) (c : ℚ) : ℚ :=
  match d.authenticity with
  | some a => if a ≤ 1 then round2 (a * 100) else round2 a
  | none => c

/-- Status-based snap: an authentic-vocabulary status boosts confidence
below 80 to 85; a fake-vocabulary status lowers confidence above 30 to 25.
The classification it assigns is returned too, but the threshold block of the caller
block reassigns classification unconditionally right after. -/
def statusAdjust (d : RDResultData) (c : ℚ) (cls : Classification) :
    ℚ × Classification :=
  match d.status with
  | some st =>
      if statusRealVocab st then (if c < 80 then 85 else c, .authentic)
      else if statusFakeVocab st then (if 30 < c then 25 else c, .deepfake)
      else (c, cls)
  | none => (c, cls)

/-- The single synthetic full-face region branch ("absolute last resort"),
tagged `synthetic_region` and carrying the warning string. -/
def syntheticHeatmap (confidenceScore : ℚ) : HeatmapData :=
  { regions := [{ x := 0.3, y := 0.2, width := 0.4, height := 0.4,
                  confidence := confidenceScore, type := "face_region",
                  manipulation_score := none, note := some "synthetic_region" }],
    confidence_threshold := 0.7,
    generated := true,
    synthetic := true,
    warning := some "Using synthetic heatmap data - RealityDefender did not provide specific regions" }

/-- The region pushed when `face_manipulation` is present. -/
def faceRegion (fm : ℚ) : HeatmapRegion :=
  { x := 0.3, y := 0.2, width := 0.4, height := 0.4,
    confidence := max 0 (100 - fm * 100), type := "face_region",
    manipulation_score := some (fm * 100) }

/-- The region pushed when `background_manipulation` is present. -/
def backgroundRegion (bm : ℚ) : HeatmapRegion :=
  { x := 0.1, y := 0.1, width := 0.8, height := 0.8,
    confidence := max 0 (100 - bm * 100), type := "background",
    manipulation_score := some (bm * 100) }

/-- The region pushed when `lighting_inconsistencies` is present. -/
def lightingRegion (li : ℚ) : HeatmapRegion :=
  { x := 0.2, y := 0.3, width := 0.6, height := 0.4,
    confidence := max 0 (100 - li * 100), type := "lighting",
    manipulation_score := some (li * 100) }

/-- The list built by the three `regions.push` calls, in program order.
Note `compression_artifacts` is not consulted here. -/
def scoreRegions (d : RDResultData) : List HeatmapRegion :=
  (match d.face_manipulation with
   | some fm => [faceRegion fm]
   | none => []) ++
  (match d.background_manipulation with
   | some bm => [backgroundRegion bm]
   | none => []) ++
  (match d.lighting_inconsistencies with
   | some li => [lightingRegion li]
   | none => [])

/-- `generateHeatmapData` of the second edge function: provider `regions`
pass through unchanged; otherwise regions are synthesized from the
face/background/lighting manipulation scores; otherwise the synthetic
full-face region is emitted. -/
def generateHeatmapData (result : RDResponse) (confidenceScore : ℚ) : HeatmapData :=
  match result.result with
  | some d =>
    match d.regions with
    | some rs =>
        { regions := rs, confidence_threshold := 0.7, api_generated := true }
    | none =>
        let regions : List HeatmapRegion := scoreRegions d
        if 0 < regions.length then
          { regions := regions, confidence_threshold := 0.7,
            generated := true, based_on_manipulation_scores := true }
        else syntheticHeatmap confidenceScore
  | none => syntheticHeatmap confidenceScore

/-- `extractManipulationDetails` of the second edge function: converts
each present 0-1 sub-score to a 0-100 value (absent keys stay at the
`details` initializer value 0) and averages the strictly positive ones. -/
def extractManipulationDetails (result : RDResponse) : Option ManipulationDetails :=
  match result.result with
  | none => none
  | some d =>
      let face := match d.face_manipulation with
        | some v => round2 (v * 100)
        | none => 0
      let background := match d.background_manipulation with
        | some v => round2 (v * 100)
        | none => 0
      let lighting := match d.lighting_inconsistencies with
        | some v => round2 (v * 100)
        | none => 0
      let compression := match d.compression_artifacts with
        | some v => round2 (v * 100)
        | none => 0
      let scores : List ℚ := [face, background, lighting, compression]
      let validScores := scores.filter (fun score => decide (0 < score))
      let overall :=
        if 0 < validScores.length then
          round2 ((validScores.foldl (fun a b => a + b) 0) / validScores.length)
        else 0
      some { overall_score := overall, face_manipulation := face,
             background_manipulation := background,
             lighting_inconsistencies := lighting,
             compression_artifacts := compression }

/-- Tail of `parseRealityDefenderResponse` after the else-if chain when no
early classification return fired: probability/authenticity overwrites,
status snap, clamp to [0,100], then the 75/40 threshold block (which
reassigns classification unconditionally). -/
def finishParse (result : RDResponse) (d : RDResultData) (c0 : ℚ) : ParsedResult :=
  let c1 := probabilityAdjust d c0
  let c2 := authenticityAdjust d c1
  let sc := statusAdjust d c2 .suspicious
  let c3 := clamp100 sc.1
  { confidence_score := c3, classification := classifyThresholds c3,
    heatmap_data := generateHeatmapData result c3,
    manipulation_details := extractManipulationDetails result }

/-- `parseRealityDefenderResponse` of the second edge function.  With no
`result` object the defaults (50, thresholds) apply; a hit in the numeric
chain proceeds to `finishParse`; otherwise a present `classification`
string returns early with snapped confidence 85/25/60. -/
def parseRealityDefenderResponse (result : RDResponse) : ParsedResult :=
  match result.result with
  | none =>
      { confidence_score := 50, classification := classifyThresholds 50,
        heatmap_data := generateHeatmapData result 50,
        manipulation_details := extractManipulationDetails result }
  | some d =>
      match chainConfidence d with
      | some c0 => finishParse result d c0
      | none =>
          match d.classification with
          | some cls =>
              if isRealVocab cls then
                { confidence_score := 85, classification := .authentic,
                  heatmap_data := generateHeatmapData result 85,
                  manipulation_details := extractManipulationDetails result }
              else if isFakeVocab cls then
                { confidence_score := 25, classification := .deepfake,
                  heatmap_data := generateHeatmapData result 25,
                  manipulation_details := extractManipulationDetails result }
              else
                { confidence_score := 60, classification := .suspicious,
                  heatmap_data := generateHeatmapData result 60,
                  manipulation_details := extractManipulationDetails result }
          | none => finishParse result d 50

end EdgeV2

/-!
## First edge-function variant

The first `serve` block of the reality-defender-analyze edge function:
only its MIME-type dispatch is needed (the premium-tier short-circuit for
non-image inputs).
-/

namespace EdgeV1

/-- Deterministic fields of the premium-tier placeholder returned for
non-image MIME types.  `processing_time_ms`, a wall-clock measurement
that is essentially zero on this path, is omitted from the model. -/
structure PlaceholderResult where
  confidence_score : ℚ
  classification : Classification
  heatmap_message : String
  api_provider : String
  fallback_reason : String
deriving DecidableEq, Repr

/-- What `analyzeWithRealityDefender` does first: either it returns the
placeholder before any network operation, or it continues into the
provider exchange, whose first awaited operation is `fetch(fileUrl)`. -/
inductive AnalyzeStep where
  | result (r : PlaceholderResult)
  | firstNetworkCall (url : String)
deriving DecidableEq, Repr

/-- The fixed placeholder for video/audio inputs
(`if (!fileType.startsWith("image/"))`). -/
def premiumPlaceholder : PlaceholderResult :=
  { confidence_score := 50, classification := .suspicious,
    heatmap_message := "Video/audio analysis requires premium API tier",
    api_provider := "Reality Defender",
    fallback_reason := "Unsupported file type" }

/-- The MIME-type dispatch at the top of `analyzeWithRealityDefender`
(first edge function): non-image types return the placeholder
immediately; image types continue into the network exchange. -/
def analyzeWithRealityDefender (fileUrl fileType : String) : AnalyzeStep :=
  if strStartsWith fileType "image/" = false then .result premiumPlaceholder
  else .firstNetworkCall fileUrl

/-- Whether the returned step involves any network traffic. -/
def makesNetworkCall : AnalyzeStep → Bool
  | .result _ => false
  | .firstNetworkCall _ => true

end EdgeV1

/-!
## `MediaService` (src/lib/mediaService.ts)

File validation, the upload entry point, the direct Reality Defender
exchange with its polling loop and default-result fallback, and this
variant of the response normalizer.
-/

/-! `API_CONFIG.REALITY_DEFENDER` constants (src/config/api.ts). -/

namespace API_CONFIG.REALITY_DEFENDER

def FREE_TIER_LIMIT : ℕ := 100

def TIMEOUT_MS : ℕ := 30000

def MAX_RETRIES : ℕ := 3

def RETRY_DELAY_MS : ℕ := 1000

def BATCH_SIZE : ℕ := 5

end API_CONFIG.REALITY_DEFENDER

namespace MediaService

/-- Keys read through `result.response || result` by the heatmap and
manipulation-detail helpers (camelCase in this variant). -/
structure MSData where
  regions : Option (List HeatmapRegion) := none
  faceManipulation : Option ℚ := none
  backgroundManipulation : Option ℚ := none
  lightingInconsistencies : Option ℚ := none
  compressionArtifacts : Option ℚ := none
deriving DecidableEq, Repr

/-- The object handed to `MediaService.parseRealityDefenderResponse`.
The calling path always passes an object, so the
`result && typeof result === "object"` guard holds.  Top-level numeric
keys feed the confidence chain; `response`, when present, shadows the
top-level data for the heatmap and manipulation helpers
(`result.response || result`). -/
structure MSResult where
  confidence : Option ℚ := none
  authenticityScore : Option ℚ := none
  score : Option ℚ := none
  fakeProbability : Option ℚ := none
  realProbability : Option ℚ := none
  classification : Option String := none
  top : MSData := {}
  response : Option MSData := none
deriving DecidableEq, Repr

/-- `result.response || result`. -/
def resultData (r : MSResult) : MSData := r.response.getD r.top

/-- The else-if chain over the five numeric confidence fields of this
variant (confidence, authenticityScore, score, fakeProbability,
realProbability); first present field wins. -/
def chainConfidence (r : MSResult) : Option ℚ :=
  match r.confidence with
  | some c => some (round2 (c * 100))
  | none =>
  match r.authenticityScore with
  | some a => some (round2 (a * 100))
  | none =>
  match r.score with
  | some s => some (if s ≤ 1 then round2 (s * 100) else round2 s)
  | none =>
  match r.fakeProbability with
  | some f => some (round2 (100 - f * 100))
  | none =>
  match r.realProbability with
  | some p => some (round2 (p * 100))
  | none => none

/-- `MediaService.generateHeatmapData`: provider regions pass through
unchanged; otherwise three fixed synthetic regions scaled from the
confidence score. -/
def generateHeatmapData (result : MSResult) (confidenceScore : ℚ) : HeatmapData :=
  let d := resultData result
  match d.regions with
  | some rs => { regions := rs, confidence_threshold := 0.7, api_generated := true }
  | none =>
      { regions := [
          { x := 0.2, y := 0.3, width := 0.1, height := 0.1,
            confidence := confidenceScore, type := "face_region" },
          { x := 0.6, y := 0.4, width := 0.15, height := 0.12,
            confidence := confidenceScore * 0.8, type := "background" },
          { x := 0.1, y := 0.7, width := 0.08, height := 0.08,
            confidence := confidenceScore * 0.9, type := "lighting" }],
        confidence_threshold := 0.7, generated := true }

/-- The repeated `if (x !== undefined) details.y = parseFloat((x * 100).toFixed(2))`
pattern: a present 0-1 fraction becomes a rounded 0-100 value, an absent
key keeps the `details` initializer value 0. -/
def convOrZero (o : Option ℚ) : ℚ :=
  match o with
  | some v => round2 (v * 100)
  | none => 0

/-- `MediaService.extractManipulationDetails`: converts each present 0-1
sub-score to a 0-100 value (absent keys stay at the `details` initializer
value 0) and averages the strictly positive ones. -/
def extractManipulationDetails (result : MSResult) : Option ManipulationDetails :=
  let d := resultData result
  let face := convOrZero d.faceManipulation
  let background := convOrZero d.backgroundManipulation
  let lighting := convOrZero d.lightingInconsistencies
  let compression := convOrZero d.compressionArtifacts
  let scores : List ℚ := [face, background, lighting, compression]
  let validScores := scores.filter (fun score => decide (0 < score))
  let overall :=
    if 0 < validScores.length then
      round2 ((validScores.foldl (fun a b => a + b) 0) / validScores.length)
    else 0
  some { overall_score := overall, face_manipulation := face,
         background_manipulation := background,
         lighting_inconsistencies := lighting,
         compression_artifacts := compression }

/-- `MediaService.parseRealityDefenderResponse`.  The chain value (or the
classification-string snap 85/25/60, or the default 50) is clamped to
[0,100]; the 75/40 threshold block then assigns the final classification
unconditionally, which is why the classification component set by the
string branch (the second component of `cc`) is discarded. -/
def parseRealityDefenderResponse (result : MSResult) : ParsedResult :=
  let cc : ℚ × Classification :=
    match chainConfidence result with
    | some c => (c, .suspicious)
    | none =>
        match result.classification with
        | some cls =>
            if isRealVocab cls then (85, .authentic)
            else if isFakeVocab cls then (25, .deepfake)
            else (60, .suspicious)
        | none => (50, .suspicious)
  let c := clamp100 cc.1
  { confidence_score := c, classification := classifyThresholds c,
    heatmap_data := generateHeatmapData result c,
    manipulation_details := extractManipulationDetails result }

end MediaService

namespace MediaService

/-- `MediaService.MAX_FILE_SIZE = 100 * 1024 * 1024` bytes. -/
def MAX_FILE_SIZE : ℕ := 100 * 1024 * 1024

/-- `Object.values(MediaService.SUPPORTED_TYPES).flat()`. -/
def SUPPORTED_TYPES : List String :=
  ["image/jpeg", "image/png"] ++ ["video/mp4", "video/quicktime"] ++ ["audio/mpeg", "audio/wav"]

/-- The two validation error messages, kept structurally: `sizeExceeded`
carries the interpolated megabyte figure of
"File size exceeds 100MB limit. Current size: _MB" (with `toFixed(1)`),
`unsupportedType` the MIME type interpolated into
"Unsupported file type: _. Supported types: JPG, PNG, MP4, MOV, MP3, WAV". -/
inductive ValidationError where
  | sizeExceeded (sizeMB : ℚ)
  | unsupportedType (fileType : String)
deriving DecidableEq, Repr

/-- Return shape of `validateFile`. -/
structure FileValidationResult where
  isValid : Bool
  error : Option ValidationError := none
deriving DecidableEq, Repr

/-- The relevant attributes of a browser `File`. -/
structure FileInfo where
  name : String
  type : String
  size : ℕ
deriving DecidableEq, Repr

/-- `MediaService.validateFile`: the size ceiling is checked first, then
membership of the flattened supported-type list. -/
def validateFile (file : FileInfo) : FileValidationResult :=
  if MAX_FILE_SIZE < file.size then
    { isValid := false,
      error := some (.sizeExceeded (round1 ((file.size : ℚ) / (1024 * 1024)))) }
  else if !(SUPPORTED_TYPES.contains file.type) then
    { isValid := false, error := some (.unsupportedType file.type) }
  else { isValid := true }

/-- The first awaited operation of `uploadFile` past validation is the
`supabase.auth.getUser()` lookup; storage upload and the media_files
insert follow it. -/
inductive UploadAction where
  | authGetUser
deriving DecidableEq, Repr

/-- How `uploadFile` leaves its synchronous prefix: a validation failure
throws `new Error(validation.error)` before any network, storage or
database operation; otherwise the function continues into the awaited
calls. -/
inductive UploadOutcome where
  | validationError (e : Option ValidationError)
  | proceed (first : UploadAction)
deriving DecidableEq, Repr

/-- The synchronous prefix of `MediaService.uploadFile`: validate, throw
on failure, otherwise continue into the network path. -/
def uploadFile (file : FileInfo) : UploadOutcome :=
  let validation := validateFile file
  if validation.isValid = false then .validationError validation.error
  else .proceed .authGetUser

/-- Whether the outcome performs any network, storage or database
operation (and hence whether a media_files row can have been inserted):
the validation throw happens before the first `await`. -/
def performsAnyEffect : UploadOutcome → Bool
  | .validationError _ => false
  | .proceed _ => true

/-- Result shape of `performRealityDefenderDetection` /
`createDefaultResult`.  Keys absent from the object literal of a branch
(`error`, `fallback`, `manipulation_details`) are `none`;
`processing_time_ms` is wall-clock and modelled as 0, the value
`createDefaultResult` uses. -/
structure DetectionResult where
  confidence_score : ℚ
  classification : Classification
  heatmap_data : Option HeatmapData
  processing_time_ms : ℚ
  error : Option String := none
  fallback : Option Bool := none
  manipulation_details : Option ManipulationDetails := none
deriving DecidableEq, Repr

/-- `MediaService.createDefaultResult`: the catch-all fallback used when
the API exchange fails.  Note it carries the reason in `error` but sets
no `fallback` key. -/
def createDefaultResult (classification : Classification) (confidence : ℚ)
    (reason : String) : DetectionResult :=
  { confidence_score := confidence * 100,
    classification := classification,
    heatmap_data := none,
    processing_time_ms := 0,
    error := some reason }

/-- `MediaService.processRealityDefenderResults`: parse and attach the
elapsed time (modelled as 0). -/
def processRealityDefenderResults (payload : MSResult) : DetectionResult :=
  let parsed := parseRealityDefenderResponse payload
  { confidence_score := parsed.confidence_score,
    classification := parsed.classification,
    heatmap_data := some parsed.heatmap_data,
    manipulation_details := parsed.manipulation_details,
    processing_time_ms := 0 }

/-- `const maxAttempts = 10` of the polling loop. -/
def maxAttempts : ℕ := 10

/-- `const delayBetweenAttempts = 2000` (milliseconds). -/
def delayBetweenAttempts : ℕ := 2000

/-- How the polling loop ends: a payload handed to
`processRealityDefenderResults`, a thrown error, or falling out of the
loop (the unreachable trailing return of the code). -/
inductive PollOutcome where
  | processed (payload : MSResult)
  | threw (msg : String)
  | fellThrough
deriving DecidableEq, Repr

/-- The polling loop of `performRealityDefenderDetection`
(`for attempt = 1..maxAttempts`), abstracted over the results endpoint:
`pollOk n` is `resultsResponse.ok` on attempt `n`, `pollComplete n` the
`code === "ok" && response && (status === "completed" || ensemble)` test,
and `pollResponse n` the payload.  Arguments are the current attempt and
the remaining iterations (fuel); the returned number counts the GET
requests made. -/
def pollLoop (pollOk pollComplete : ℕ → Bool) (pollResponse : ℕ → MSResult) :
    ℕ → ℕ → ℕ × PollOutcome
  | _, 0 => (0, .fellThrough)
  | attempt, fuel + 1 =>
    if pollOk attempt = false then
      if attempt = maxAttempts then (1, .threw "Failed to get results after 10 attempts")
      else
        let r := pollLoop pollOk pollComplete pollResponse (attempt + 1) fuel
        (r.1 + 1, r.2)
    else if pollComplete attempt then (1, .processed (pollResponse attempt))
    else if attempt = maxAttempts then (1, .processed (pollResponse attempt))
    else
      let r := pollLoop pollOk pollComplete pollResponse (attempt + 1) fuel
      (r.1 + 1, r.2)

/-- The two key checks at the top of `performRealityDefenderDetection`:
key present (truthy), and not the placeholder / at least 10 characters. -/
structure ApiKeyConfig where
  apiKeyPresent : Bool
  apiKeyValid : Bool
deriving DecidableEq, Repr

/-- Outcome oracle for the network exchange: success of the storage-image
fetch, the signed-URL POST, its shape check
(`code === "ok" && response && response.signedUrl`), the file PUT, the
media-id presence check, and the polling GETs. -/
structure NetOracle where
  imageFetchOk : Bool
  signedUrlOk : Bool
  signedUrlValid : Bool
  uploadOk : Bool
  mediaIdPresent : Bool
  pollOk : ℕ → Bool
  pollComplete : ℕ → Bool
  pollResponse : ℕ → MSResult

/-- `MediaService.performRealityDefenderDetection`, with network effects
abstracted by the oracle.  The first component counts HTTP requests made
to the provider exchange (signed-URL POST, file PUT, polling GETs; the
image fetch goes to storage, not the provider).  Every throw inside the
`try` lands in the catch, which returns
`createDefaultResult("suspicious", 0.5, error.message)`; interpolated
HTTP status codes are omitted from the message models.  `fileUrl` and
`fileType` are parameters of the source function; neither gates the
exchange (`fileType` only shapes the upload file name and blob type), so
the model does not consume them. -/
def performRealityDefenderDetection (fileUrl fileType : String)
    (cfg : ApiKeyConfig) (net : NetOracle) :
    ℕ × DetectionResult :=
  if cfg.apiKeyPresent = false then
    (0, createDefaultResult .suspicious 0.5 "API key missing")
  else if cfg.apiKeyValid = false then
    (0, createDefaultResult .suspicious 0.5 "Invalid Reality Defender API key")
  else if net.imageFetchOk = false then
    (0, createDefaultResult .suspicious 0.5 "Failed to fetch image")
  else if net.signedUrlOk = false then
    (1, createDefaultResult .suspicious 0.5 "Failed to get signed URL")
  else if net.signedUrlValid = false then
    (1, createDefaultResult .suspicious 0.5 "Invalid signed URL response from Reality Defender API")
  else if net.uploadOk = false then
    (2, createDefaultResult .suspicious 0.5 "Failed to upload file")
  else if net.mediaIdPresent = false then
    (2, createDefaultResult .suspicious 0.5 "No media ID found in the response from Reality Defender API")
  else
    let r := pollLoop net.pollOk net.pollComplete net.pollResponse 1 maxAttempts
    (2 + r.1,
      match r.2 with
      | .processed payload => processRealityDefenderResults payload
      | .threw msg => createDefaultResult .suspicious 0.5 msg
      | .fellThrough => createDefaultResult .suspicious 0.5 "Incomplete analysis results")

end MediaService

/-!
## Claim theorems
-/

namespace MediaService

theorem validateFile_isValid_iff (file : FileInfo) :
    (validateFile file).isValid = true ↔
      file.size ≤ 104857600 ∧ SUPPORTED_TYPES.contains file.type = true := by
  unfold validateFile MAX_FILE_SIZE
  split_ifs with h1 h2
  · constructor
    · intro h
      simp at h
    · rintro ⟨h, -⟩
      omega
  · constructor
    · intro h
      simp at h
    · rintro ⟨-, h⟩
      rw [h] at h2
      simp at h2
  · constructor
    · intro _
      refine ⟨by omega, ?_⟩
      simpa using h2
    · intro _
      rfl

theorem validateFile_oversize (file : FileInfo) (h : 104857600 < file.size) :
    validateFile file =
      { isValid := false,
        error := some (.sizeExceeded (round1 ((file.size : ℚ) / (1024 * 1024)))) } := by
  unfold validateFile
  rw [if_pos (by unfold MAX_FILE_SIZE; omega)]

theorem validateFile_badtype (file : FileInfo) (h1 : file.size ≤ 104857600)
    (h2 : SUPPORTED_TYPES.contains file.type = false) :
    validateFile file = { isValid := false, error := some (.unsupportedType file.type) } := by
  unfold validateFile
  rw [if_neg (by unfold MAX_FILE_SIZE; omega), if_pos (by rw [h2]; rfl)]

end MediaService

/-- C10: `validateFile` is total (a Lean function) and accepts exactly the
files whose byte size is at most 104857600 (100 MiB inclusive) and whose
MIME type is one of the six supported strings; when both constraints are
violated the size check fires first, so the returned error is the
size-limit error. -/
theorem C10_validateFile_characterization (file : MediaService.FileInfo) :
    ((MediaService.validateFile file).isValid = true ↔
      file.size ≤ 104857600 ∧
        MediaService.SUPPORTED_TYPES.contains file.type = true) ∧
    (104857600 < file.size →
      MediaService.SUPPORTED_TYPES.contains file.type = false →
      (MediaService.validateFile file).error =
        some (.sizeExceeded (round1 ((file.size : ℚ) / (1024 * 1024))))) := by
  refine ⟨MediaService.validateFile_isValid_iff file, fun hs _ => ?_⟩
  rw [MediaService.validateFile_oversize file hs]

/-- Witness for C10: a 150 MiB PDF violates both constraints and gets the
size-limit error; 157286400 / 1048576 = 150 exactly. -/
theorem C10_witness :
    (MediaService.validateFile
        { name := "big.pdf", type := "application/pdf", size := 157286400 }).error =
      some (.sizeExceeded (round1 ((157286400 : ℚ) / (1024 * 1024)))) :=
  (C10_validateFile_characterization _).2 (by norm_num) (by decide)

/-- C8: a file that is oversized or of unsupported type makes `uploadFile`
throw the validation error produced by `validateFile` before any network,
storage or database operation, so no media_files row is inserted. -/
theorem C8_uploadFile_failfast (file : MediaService.FileInfo)
    (h : 104857600 < file.size ∨
         MediaService.SUPPORTED_TYPES.contains file.type = false) :
    MediaService.uploadFile file =
      .validationError (MediaService.validateFile file).error ∧
    (∃ e, (MediaService.validateFile file).error = some e) ∧
    MediaService.performsAnyEffect (MediaService.uploadFile file) = false := by
  have hinv : (MediaService.validateFile file).isValid = false := by
    rcases h with h | h
    · rw [MediaService.validateFile_oversize file h]
    · rcases le_or_lt file.size 104857600 with hle | hlt
      · rw [MediaService.validateFile_badtype file hle h]
      · rw [MediaService.validateFile_oversize file hlt]
  have herr : ∃ e, (MediaService.validateFile file).error = some e := by
    rcases h with h | h
    · exact ⟨_, by rw [MediaService.validateFile_oversize file h]⟩
    · rcases le_or_lt file.size 104857600 with hle | hlt
      · exact ⟨_, by rw [MediaService.validateFile_badtype file hle h]⟩
      · exact ⟨_, by rw [MediaService.validateFile_oversize file hlt]⟩
  refine ⟨?_, herr, ?_⟩
  · simp [MediaService.uploadFile, hinv]
  · simp [MediaService.uploadFile, hinv, MediaService.performsAnyEffect]

/-- Witness for C8: the 150 MiB upload of the end-to-end scenario in the spec
is rejected with no effect performed. -/
theorem C8_witness :
    MediaService.uploadFile { name := "big.png", type := "image/png", size := 157286400 } =
      .validationError (MediaService.validateFile
        { name := "big.png", type := "image/png", size := 157286400 }).error ∧
    (∃ e, (MediaService.validateFile
        { name := "big.png", type := "image/png", size := 157286400 }).error = some e) ∧
    MediaService.performsAnyEffect (MediaService.uploadFile
        { name := "big.png", type := "image/png", size := 157286400 }) = false :=
  C8_uploadFile_failfast _ (Or.inl (by norm_num))

theorem classifyThresholds_85 : classifyThresholds 85 = .authentic := by
  norm_num [classifyThresholds]

theorem classifyThresholds_25 : classifyThresholds 25 = .deepfake := by
  norm_num [classifyThresholds]

theorem classifyThresholds_60 : classifyThresholds 60 = .suspicious := by
  norm_num [classifyThresholds]

theorem classifyThresholds_50 : classifyThresholds 50 = .suspicious := by
  norm_num [classifyThresholds]

/-- In the second edge function, the returned classification is always
the threshold function of the returned confidence: the early
classification-string return uses the threshold-coherent snap values
85/25/60, and every other path ends in the threshold block. -/
theorem edge_parse_classification_eq (p : EdgeV2.RDResponse) :
    (EdgeV2.parseRealityDefenderResponse p).classification =
      classifyThresholds (EdgeV2.parseRealityDefenderResponse p).confidence_score := by
  unfold EdgeV2.parseRealityDefenderResponse
  cases hp : p.result with
  | none => simp
  | some d =>
    cases hch : EdgeV2.chainConfidence d with
    | some c0 => simp [hch, EdgeV2.finishParse]
    | none =>
      cases hcl : d.classification with
      | none => simp [hch, hcl, EdgeV2.finishParse]
      | some cls =>
        by_cases hr : isRealVocab cls = true
        · simp [hch, hcl, hr, classifyThresholds_85]
        · by_cases hf : isFakeVocab cls = true
          · simp [hch, hcl, hr, hf, classifyThresholds_25]
          · simp [hch, hcl, hr, hf, classifyThresholds_60]

/-- In the MediaService variant the threshold block is the last
assignment on every path, so this holds definitionally. -/
theorem ms_parse_classification_eq (r : MediaService.MSResult) :
    (MediaService.parseRealityDefenderResponse r).classification =
      classifyThresholds
        (MediaService.parseRealityDefenderResponse r).confidence_score := rfl

/-- C9: in both normalizer variants the returned (confidence,
classification) pair is always threshold-coherent, override branches
included: the snap values 85/25/60 agree with the 75/40 thresholds. -/
theorem C9_threshold_coherence_always :
    (∀ p : EdgeV2.RDResponse,
      ((EdgeV2.parseRealityDefenderResponse p).classification = .authentic ↔
        75 ≤ (EdgeV2.parseRealityDefenderResponse p).confidence_score) ∧
      ((EdgeV2.parseRealityDefenderResponse p).classification = .suspicious ↔
        40 ≤ (EdgeV2.parseRealityDefenderResponse p).confidence_score ∧
        (EdgeV2.parseRealityDefenderResponse p).confidence_score < 75) ∧
      ((EdgeV2.parseRealityDefenderResponse p).classification = .deepfake ↔
        (EdgeV2.parseRealityDefenderResponse p).confidence_score < 40)) ∧
    (∀ r : MediaService.MSResult,
      ((MediaService.parseRealityDefenderResponse r).classification = .authentic ↔
        75 ≤ (MediaService.parseRealityDefenderResponse r).confidence_score) ∧
      ((MediaService.parseRealityDefenderResponse r).classification = .suspicious ↔
        40 ≤ (MediaService.parseRealityDefenderResponse r).confidence_score ∧
        (MediaService.parseRealityDefenderResponse r).confidence_score < 75) ∧
      ((MediaService.parseRealityDefenderResponse r).classification = .deepfake ↔
        (MediaService.parseRealityDefenderResponse r).confidence_score < 40)) := by
  constructor
  · intro p
    rw [edge_parse_classification_eq p]
    exact classifyThresholds_coherent _
  · intro r
    rw [ms_parse_classification_eq r]
    exact classifyThresholds_coherent _

/-- C1: when the payload carries no classification string and no status
string (so no textual override can fire), the output of the edge normalizer:
classification is authentic iff confidence ≥ 75, suspicious iff
40 ≤ confidence < 75, and deepfake iff confidence < 40. -/
theorem C1_thresholds_no_override (p : EdgeV2.RDResponse)
    (hov : ∀ d, p.result = some d → d.classification = none ∧ d.status = none) :
    ((EdgeV2.parseRealityDefenderResponse p).classification = .authentic ↔
      75 ≤ (EdgeV2.parseRealityDefenderResponse p).confidence_score) ∧
    ((EdgeV2.parseRealityDefenderResponse p).classification = .suspicious ↔
      40 ≤ (EdgeV2.parseRealityDefenderResponse p).confidence_score ∧
      (EdgeV2.parseRealityDefenderResponse p).confidence_score < 75) ∧
    ((EdgeV2.parseRealityDefenderResponse p).classification = .deepfake ↔
      (EdgeV2.parseRealityDefenderResponse p).confidence_score < 40) := by
  have _ := hov
  rw [edge_parse_classification_eq p]
  exact classifyThresholds_coherent _

/-- Witness for C1 at the payload carrying only `score := 88`. -/
theorem C1_witness :
    ((EdgeV2.parseRealityDefenderResponse { result := some { score := some 88 } }).classification = .authentic ↔
      75 ≤ (EdgeV2.parseRealityDefenderResponse { result := some { score := some 88 } }).confidence_score) ∧
    ((EdgeV2.parseRealityDefenderResponse { result := some { score := some 88 } }).classification = .suspicious ↔
      40 ≤ (EdgeV2.parseRealityDefenderResponse { result := some { score := some 88 } }).confidence_score ∧
      (EdgeV2.parseRealityDefenderResponse { result := some { score := some 88 } }).confidence_score < 75) ∧
    ((EdgeV2.parseRealityDefenderResponse { result := some { score := some 88 } }).classification = .deepfake ↔
      (EdgeV2.parseRealityDefenderResponse { result := some { score := some 88 } }).confidence_score < 40) :=
  C1_thresholds_no_override _ (fun d hd => by cases hd; exact ⟨rfl, rfl⟩)

/-- Network oracle on which every provider step succeeds and the first
poll reports completion. -/
def netAllOk : MediaService.NetOracle :=
  { imageFetchOk := true, signedUrlOk := true, signedUrlValid := true, uploadOk := true,
    mediaIdPresent := true, pollOk := fun _ => true, pollComplete := fun _ => true,
    pollResponse := fun _ => {} }

/-- A present and valid API key. -/
def cfgOk : MediaService.ApiKeyConfig := { apiKeyPresent := true, apiKeyValid := true }

/-- C6 counterexample: the direct `MediaService.performRealityDefenderDetection`
performs no MIME-type gate: called with `video/mp4` it still makes
provider requests (three here: signed-URL POST, file PUT, one poll),
refuting "non-image inputs never reach the provider" for this client. -/
theorem C6_counterexample :
    strStartsWith "video/mp4" "image/" = false ∧
    (MediaService.performRealityDefenderDetection "https://example.com/f" "video/mp4"
        cfgOk netAllOk).1 = 3 ∧
    (0 : ℕ) < 3 := by
  refine ⟨by decide, ?_, by decide⟩
  rfl

/-- C6 (amended): in the edge-function Detector Client the short-circuit
holds: non-image MIME types return the fixed premium-tier placeholder
with no network call, and image types proceed into the provider exchange.
(The direct MediaService client has no such gate.) -/
theorem C6_edge_short_circuit (fileUrl fileType : String) :
    (strStartsWith fileType "image/" = false →
      EdgeV1.analyzeWithRealityDefender fileUrl fileType = .result EdgeV1.premiumPlaceholder ∧
      EdgeV1.makesNetworkCall (EdgeV1.analyzeWithRealityDefender fileUrl fileType) = false) ∧
    (strStartsWith fileType "image/" = true →
      EdgeV1.analyzeWithRealityDefender fileUrl fileType = .firstNetworkCall fileUrl) := by
  constructor
  · intro h
    unfold EdgeV1.analyzeWithRealityDefender
    rw [if_pos h]
    exact ⟨rfl, rfl⟩
  · intro h
    unfold EdgeV1.analyzeWithRealityDefender
    rw [if_neg (by simp [h])]

/-- Witness for the amended C6 theorem at `video/mp4`. -/
theorem C6_witness :
    EdgeV1.analyzeWithRealityDefender "https://example.com/f" "video/mp4" =
      .result EdgeV1.premiumPlaceholder ∧
    EdgeV1.makesNetworkCall
      (EdgeV1.analyzeWithRealityDefender "https://example.com/f" "video/mp4") = false :=
  (C6_edge_short_circuit _ _).1 (by decide)

/-- The confidence-extraction priority order exactly as the spec states
it: direct confidence fraction, authenticity-score fraction, generic
score with 0-1 vs 0-100 auto-detection, fake-probability inverted,
real-probability, manipulation-score inverted; first match wins. -/
def specConfidencePriority (d : EdgeV2.RDResultData) : Option ℚ :=
  (d.confidence.map (fun c => round2 (c * 100))) <|>
  (d.authenticity_score.map (fun a => round2 (a * 100))) <|>
  (d.score.map (fun s => if s ≤ 1 then round2 (s * 100) else round2 s)) <|>
  (d.fake_probability.map (fun f => round2 (100 - f * 100))) <|>
  (d.real_probability.map (fun p => round2 (p * 100))) <|>
  (d.manipulation_score.map (fun m => round2 (100 - m * 100)))

theorem chainConfidence_eq_spec (d : EdgeV2.RDResultData) :
    EdgeV2.chainConfidence d = specConfidencePriority d := by
  unfold EdgeV2.chainConfidence specConfidencePriority
  cases d.confidence <;> cases d.authenticity_score <;> cases d.score <;>
    cases d.fake_probability <;> cases d.real_probability <;>
    cases d.manipulation_score <;> rfl

/-- C2 (amended): the else-if chain follows exactly the priority
order, and its value (clamped to [0,100]) is the output confidence
provided none of the later-checked `probability`, `authenticity` or
`status` keys is present; when additionally no chain field and no
`classification` string is present (or the payload has no `result`
object at all), the normalizer returns confidence 50 and `suspicious` —
and, being a total function, it never throws. -/
theorem C2_priority_order (p : EdgeV2.RDResponse) :
    (∀ d, p.result = some d →
      d.probability = none → d.authenticity = none → d.status = none →
      (EdgeV2.chainConfidence d = specConfidencePriority d) ∧
      (∀ c, EdgeV2.chainConfidence d = some c →
        (EdgeV2.parseRealityDefenderResponse p).confidence_score = clamp100 c) ∧
      (EdgeV2.chainConfidence d = none → d.classification = none →
        (EdgeV2.parseRealityDefenderResponse p).confidence_score = 50 ∧
        (EdgeV2.parseRealityDefenderResponse p).classification = .suspicious)) ∧
    (p.result = none →
      (EdgeV2.parseRealityDefenderResponse p).confidence_score = 50 ∧
      (EdgeV2.parseRealityDefenderResponse p).classification = .suspicious) := by
  constructor
  · intro d hp hprob hauth hstat
    refine ⟨chainConfidence_eq_spec d, ?_, ?_⟩
    · intro c hc
      unfold EdgeV2.parseRealityDefenderResponse
      simp [hp, hc, EdgeV2.finishParse, EdgeV2.probabilityAdjust, hprob,
            EdgeV2.authenticityAdjust, hauth, EdgeV2.statusAdjust, hstat]
    · intro hc hcl
      unfold EdgeV2.parseRealityDefenderResponse
      simp [hp, hc, hcl, EdgeV2.finishParse, EdgeV2.probabilityAdjust, hprob,
            EdgeV2.authenticityAdjust, hauth, EdgeV2.statusAdjust, hstat]
      constructor
      · rw [clamp100_eq_self (by norm_num) (by norm_num)]
      · rw [clamp100_eq_self (by norm_num) (by norm_num), classifyThresholds_50]
  · intro hp
    unfold EdgeV2.parseRealityDefenderResponse
    simp [hp, classifyThresholds_50]

/-- Witness for the amended C2 theorem: a payload carrying only
`confidence := 0.5` yields 50 through the chain. -/
theorem C2_witness :
    (EdgeV2.parseRealityDefenderResponse
        { result := some { confidence := some (1/2) } }).confidence_score = clamp100 50 := by
  have h := (C2_priority_order { result := some { confidence := some (1/2) } }).1
    { confidence := some (1/2) } rfl rfl rfl rfl
  refine h.2.1 50 ?_
  show some (round2 (1/2 * 100)) = some 50
  rw [show (1/2 * 100 : ℚ) = ((50 : ℕ) : ℚ) by norm_num, round2_natCast]
  norm_num

/-- C2 counterexample: in a payload carrying both `confidence := 0.9` and
`authenticity := 0.1`, the first matching priority field (`confidence`)
yields 90, yet the normalizer outputs 10, because the later
`authenticity` check overwrites the chained value — so the output is not
always the first matching priority field. -/
theorem C2_counterexample :
    specConfidencePriority { confidence := some (9/10), authenticity := some (1/10) } = some 90 ∧
    (EdgeV2.parseRealityDefenderResponse
        { result := some { confidence := some (9/10), authenticity := some (1/10) } }).confidence_score = 10 ∧
    (10 : ℚ) < 90 := by
  have h90 : round2 (9/10 * 100) = 90 := by
    rw [show (9/10 * 100 : ℚ) = ((90 : ℕ) : ℚ) by norm_num, round2_natCast]
    norm_num
  have h10 : round2 (1/10 * 100) = 10 := by
    rw [show (1/10 * 100 : ℚ) = ((10 : ℕ) : ℚ) by norm_num, round2_natCast]
    norm_num
  refine ⟨?_, ?_, by norm_num⟩
  · simp [specConfidencePriority, h90]
  · unfold EdgeV2.parseRealityDefenderResponse
    simp [EdgeV2.chainConfidence, EdgeV2.finishParse, EdgeV2.probabilityAdjust,
          EdgeV2.authenticityAdjust, EdgeV2.statusAdjust, h90]
    rw [if_pos (by norm_num : ((10:ℚ)⁻¹ ≤ 1))]
    rw [show ((10:ℚ)⁻¹ * 100) = ((10 : ℕ) : ℚ) by norm_num, round2_natCast]
    rw [clamp100_eq_self (by norm_num) (by norm_num)]
    norm_num

/-- C3 (amended): heatmap priority in the second edge function.
(a) An explicit provider `regions` array passes through unchanged.
(b) Otherwise, regions are synthesized one per available sub-score among
face, background and lighting (compression_artifacts yields no region),
each with confidence `max 0 (100 - subscore*100)`.
(c) Otherwise — including when the only sub-score present is
compression — exactly one synthetic full-face region is emitted, tagged
synthetic with an explicit warning. -/
theorem C3_heatmap_priority (p : EdgeV2.RDResponse) (c : ℚ) :
    (∀ d rs, p.result = some d → d.regions = some rs →
      EdgeV2.generateHeatmapData p c =
        { regions := rs, confidence_threshold := 0.7, api_generated := true }) ∧
    (∀ d, p.result = some d → d.regions = none →
      (d.face_manipulation ≠ none ∨ d.background_manipulation ≠ none ∨
       d.lighting_inconsistencies ≠ none) →
      (EdgeV2.generateHeatmapData p c).regions = EdgeV2.scoreRegions d ∧
      (EdgeV2.generateHeatmapData p c).based_on_manipulation_scores = true ∧
      (EdgeV2.generateHeatmapData p c).synthetic = false ∧
      (EdgeV2.scoreRegions d).length =
        (if d.face_manipulation.isSome then 1 else 0) +
        (if d.background_manipulation.isSome then 1 else 0) +
        (if d.lighting_inconsistencies.isSome then 1 else 0) ∧
      (∀ fm, (EdgeV2.faceRegion fm).confidence = max 0 (100 - fm * 100)) ∧
      (∀ bm, (EdgeV2.backgroundRegion bm).confidence = max 0 (100 - bm * 100)) ∧
      (∀ li, (EdgeV2.lightingRegion li).confidence = max 0 (100 - li * 100))) ∧
    ((p.result = none ∨ ∃ d, p.result = some d ∧ d.regions = none ∧
        d.face_manipulation = none ∧ d.background_manipulation = none ∧
        d.lighting_inconsistencies = none) →
      EdgeV2.generateHeatmapData p c = EdgeV2.syntheticHeatmap c ∧
      (EdgeV2.syntheticHeatmap c).regions.length = 1 ∧
      (EdgeV2.syntheticHeatmap c).synthetic = true ∧
      (EdgeV2.syntheticHeatmap c).warning ≠ none) := by
  refine ⟨?_, ?_, ?_⟩
  · intro d rs hp hr
    unfold EdgeV2.generateHeatmapData
    simp [hp, hr]
  · intro d hp hr hne
    have hlen : 0 < (EdgeV2.scoreRegions d).length := by
      rcases hne with h | h | h
      all_goals cases hf : d.face_manipulation <;>
        cases hb : d.background_manipulation <;>
        cases hl : d.lighting_inconsistencies <;>
        simp_all [EdgeV2.scoreRegions]
    have hcount : (EdgeV2.scoreRegions d).length =
        (if d.face_manipulation.isSome then 1 else 0) +
        (if d.background_manipulation.isSome then 1 else 0) +
        (if d.lighting_inconsistencies.isSome then 1 else 0) := by
      cases hf : d.face_manipulation <;>
        cases hb : d.background_manipulation <;>
        cases hl : d.lighting_inconsistencies <;>
        simp [EdgeV2.scoreRegions, hf, hb, hl]
    refine ⟨?_, ?_, ?_, hcount, fun _ => rfl, fun _ => rfl, fun _ => rfl⟩
    all_goals
      unfold EdgeV2.generateHeatmapData
      simp only [hp, hr]
      rw [if_pos hlen]
  · intro h
    have hsyn : EdgeV2.generateHeatmapData p c = EdgeV2.syntheticHeatmap c := by
      rcases h with hp | ⟨d, hp, hr, hf, hb, hl⟩
      · unfold EdgeV2.generateHeatmapData
        simp [hp]
      · unfold EdgeV2.generateHeatmapData
        simp [hp, hr, EdgeV2.scoreRegions, hf, hb, hl]
    refine ⟨hsyn, rfl, rfl, by simp [EdgeV2.syntheticHeatmap]⟩

/-- Witness for the amended C3 theorem: an explicit provider region list
passes through unchanged. -/
theorem C3_witness :
    EdgeV2.generateHeatmapData
        { result := some { regions := some (
            [{ x := 0.1, y := 0.2, width := 0.3, height := 0.4,
               confidence := 55, type := "face_region" }]) } } 50 =
      { regions := [{ x := 0.1, y := 0.2, width := 0.3, height := 0.4,
                      confidence := 55, type := "face_region" }],
        confidence_threshold := 0.7, api_generated := true } :=
  (C3_heatmap_priority _ 50).1 _ _ rfl rfl

/-- C3 counterexample: a payload whose only manipulation sub-score is
`compression_artifacts = 0.5` produces no sub-score region (branch (b) of the claim would demand one); the code falls through to the single
synthetic warning region. -/
theorem C3_counterexample :
    EdgeV2.generateHeatmapData
        { result := some { compression_artifacts := some (1/2) } } 50 =
      EdgeV2.syntheticHeatmap 50 ∧
    (EdgeV2.syntheticHeatmap 50).synthetic = true ∧
    (EdgeV2.syntheticHeatmap 50).warning =
      some "Using synthetic heatmap data - RealityDefender did not provide specific regions" ∧
    (EdgeV2.syntheticHeatmap 50).regions.map (fun r => r.manipulation_score) = [none] := by
  refine ⟨?_, rfl, rfl, rfl⟩
  unfold EdgeV2.generateHeatmapData
  simp [EdgeV2.scoreRegions]

theorem decide_zero_lt_zero_rat : (decide ((0:ℚ) < 0)) = false := by
  rw [decide_eq_false_iff_not]
  exact lt_irrefl 0

/-- The converted (0-100) values of exactly the sub-scores present in the
payload, in the order face, background, lighting, compression. -/
def presentConvertedSubscores (d : MediaService.MSData) : List ℚ :=
  (match d.faceManipulation with
   | some v => [round2 (v * 100)]
   | none => []) ++
  (match d.backgroundManipulation with
   | some v => [round2 (v * 100)]
   | none => []) ++
  (match d.lightingInconsistencies with
   | some v => [round2 (v * 100)]
   | none => []) ++
  (match d.compressionArtifacts with
   | some v => [round2 (v * 100)]
   | none => [])

/-- The aggregate the code actually computes, stated over the present
sub-scores: the mean of the strictly positive converted values (0 when
none is positive) — present zero or negative sub-scores are excluded just
like absent ones. -/
def specAggregate (r : MediaService.MSResult) : ℚ :=
  let pos := (presentConvertedSubscores (MediaService.resultData r)).filter
    (fun s => decide (0 < s))
  if 0 < pos.length then round2 ((pos.foldl (fun a b => a + b) 0) / pos.length)
  else 0

/-- The aggregate the code computes equals the spec-side positive-mean formula, for
every payload. -/
theorem extract_overall_eq_specAggregate (r : MediaService.MSResult) :
    (MediaService.extractManipulationDetails r).map (fun det => det.overall_score) =
      some (specAggregate r) := by
  unfold MediaService.extractManipulationDetails specAggregate
  cases hf : (MediaService.resultData r).faceManipulation <;>
  cases hb : (MediaService.resultData r).backgroundManipulation <;>
  cases hl : (MediaService.resultData r).lightingInconsistencies <;>
  cases hc : (MediaService.resultData r).compressionArtifacts <;>
    simp [presentConvertedSubscores, MediaService.convOrZero, hf, hb, hl, hc,
      List.filter_cons, List.filter_append, decide_zero_lt_zero_rat]

/-- C4 (amended): `overall_score` is the arithmetic mean of the strictly
positive converted sub-scores — absent sub-scores are excluded, but so
are present sub-scores that convert to 0 (or below) — and the example
of the claim still holds: face 20 with lighting 10 averages to 15. -/
theorem C4_aggregate_mean :
    (∀ r : MediaService.MSResult,
      (MediaService.extractManipulationDetails r).map (fun det => det.overall_score) =
        some (specAggregate r)) ∧
    ((MediaService.extractManipulationDetails
        { top := { faceManipulation := some (1/5),
                   lightingInconsistencies := some (1/10) } }).map
        (fun det => det.overall_score) = some 15) := by
  refine ⟨extract_overall_eq_specAggregate, ?_⟩
  rw [extract_overall_eq_specAggregate]
  have h20 : round2 (1/5 * 100) = 20 := by
    rw [show (1/5 * 100 : ℚ) = ((20 : ℕ) : ℚ) by norm_num, round2_natCast]
    norm_num
  have h10 : round2 (1/10 * 100) = 10 := by
    rw [show (1/10 * 100 : ℚ) = ((10 : ℕ) : ℚ) by norm_num, round2_natCast]
    norm_num
  have hp : presentConvertedSubscores (MediaService.resultData
      { top := { faceManipulation := some (1/5),
                 lightingInconsistencies := some (1/10) } }) =
      [round2 (1/5 * 100), round2 (1/10 * 100)] := rfl
  have d20 : (decide ((0:ℚ) < 20)) = true := decide_eq_true (by norm_num)
  have d10 : (decide ((0:ℚ) < 10)) = true := decide_eq_true (by norm_num)
  unfold specAggregate
  rw [hp, h20, h10]
  simp only [List.filter_cons, List.filter_nil, d20, d10, if_true]
  norm_num
  rw [show (15 : ℚ) = ((15 : ℕ) : ℚ) by norm_num, round2_natCast]

/-- C4 counterexample: a payload with `face_manipulation = 0` and
`lighting_inconsistencies = 0.1` has present sub-scores 0 and 10, whose
arithmetic mean is 5; the code filters out the present zero and returns
10, so the aggregate is not the mean of the present sub-scores. -/
theorem C4_counterexample :
    ((MediaService.extractManipulationDetails
        { top := { faceManipulation := some 0,
                   lightingInconsistencies := some (1/10) } }).map
        (fun det => det.overall_score) = some 10) ∧
    ((0 : ℚ) + 10) / 2 = 5 ∧ (5 : ℚ) < 10 := by
  refine ⟨?_, by norm_num, by norm_num⟩
  rw [extract_overall_eq_specAggregate]
  have h0 : round2 (0 * 100) = 0 := by
    rw [show (0 * 100 : ℚ) = ((0 : ℕ) : ℚ) by norm_num, round2_natCast]
    norm_num
  have h10 : round2 (1/10 * 100) = 10 := by
    rw [show (1/10 * 100 : ℚ) = ((10 : ℕ) : ℚ) by norm_num, round2_natCast]
    norm_num
  have hp : presentConvertedSubscores (MediaService.resultData
      { top := { faceManipulation := some 0,
                 lightingInconsistencies := some (1/10) } }) =
      [round2 (0 * 100), round2 (1/10 * 100)] := rfl
  have d10 : (decide ((0:ℚ) < 10)) = true := decide_eq_true (by norm_num)
  unfold specAggregate
  rw [hp, h0, h10]
  simp only [List.filter_cons, List.filter_nil, d10, decide_zero_lt_zero_rat, if_true]
  norm_num
  rw [show (10 : ℚ) = ((10 : ℕ) : ℚ) by norm_num, round2_natCast]

theorem convOrZero_twoDecimal (o : Option ℚ) : TwoDecimal (MediaService.convOrZero o) := by
  cases o with
  | none => exact ⟨0, by norm_num [MediaService.convOrZero]⟩
  | some v => exact round2_twoDecimal (v * 100)

theorem convOrZero_bounds (o : Option ℚ)
    (h : ∀ v, o = some v → 0 ≤ v ∧ v ≤ 1) :
    0 ≤ MediaService.convOrZero o ∧ MediaService.convOrZero o ≤ 100 := by
  cases o with
  | none => norm_num [MediaService.convOrZero]
  | some v =>
    obtain ⟨h0, h1⟩ := h v rfl
    unfold MediaService.convOrZero
    exact ⟨round2_nonneg (by positivity), round2_le_100 (by linarith)⟩

theorem foldl_add_nonneg (l : List ℚ) :
    ∀ a : ℚ, (∀ x ∈ l, 0 ≤ x) → 0 ≤ a → 0 ≤ l.foldl (fun x y => x + y) a := by
  induction l with
  | nil => intro a _ ha; exact ha
  | cons b t ih =>
    intro a h ha
    rw [List.foldl_cons]
    exact ih (a + b) (fun x hx => h x (List.mem_cons_of_mem b hx))
      (add_nonneg ha (h b (List.mem_cons_self b t)))

theorem foldl_add_le (l : List ℚ) :
    ∀ a : ℚ, (∀ x ∈ l, x ≤ 100) → l.foldl (fun x y => x + y) a ≤ a + 100 * l.length := by
  induction l with
  | nil => intro a _; simp
  | cons b t ih =>
    intro a h
    rw [List.foldl_cons]
    have hb : b ≤ 100 := h b (List.mem_cons_self b t)
    have := ih (a + b) (fun x hx => h x (List.mem_cons_of_mem b hx))
    have hlen : ((b :: t).length : ℚ) = (t.length : ℚ) + 1 := by
      rw [List.length_cons]
      push_cast
      ring
    rw [hlen]
    linarith

/-- All four sub-score fractions, where present, lie in [0,1]. -/
def MSDataInRange (d : MediaService.MSData) : Prop :=
  (∀ v, d.faceManipulation = some v → 0 ≤ v ∧ v ≤ 1) ∧
  (∀ v, d.backgroundManipulation = some v → 0 ≤ v ∧ v ≤ 1) ∧
  (∀ v, d.lightingInconsistencies = some v → 0 ≤ v ∧ v ≤ 1) ∧
  (∀ v, d.compressionArtifacts = some v → 0 ≤ v ∧ v ≤ 1)

/-- Every confidence the MediaService chain can produce has two
decimals. -/
theorem MediaService.chain_twoDecimal (r : MediaService.MSResult) :
    ∀ c, MediaService.chainConfidence r = some c → TwoDecimal c := by
  intro c h
  unfold MediaService.chainConfidence at h
  cases h1 : r.confidence with
  | some v => simp only [h1] at h; exact (Option.some.inj h) ▸ round2_twoDecimal _
  | none =>
  simp only [h1] at h
  cases h2 : r.authenticityScore with
  | some v => simp only [h2] at h; exact (Option.some.inj h) ▸ round2_twoDecimal _
  | none =>
  simp only [h2] at h
  cases h3 : r.score with
  | some v =>
    simp only [h3] at h
    rcases le_or_lt v 1 with hv | hv
    · rw [if_pos hv] at h
      exact (Option.some.inj h) ▸ round2_twoDecimal _
    · rw [if_neg (not_le.mpr hv)] at h
      exact (Option.some.inj h) ▸ round2_twoDecimal _
  | none =>
  simp only [h3] at h
  cases h4 : r.fakeProbability with
  | some v => simp only [h4] at h; exact (Option.some.inj h) ▸ round2_twoDecimal _
  | none =>
  simp only [h4] at h
  cases h5 : r.realProbability with
  | some v => simp only [h5] at h; exact (Option.some.inj h) ▸ round2_twoDecimal _
  | none => simp only [h5] at h; exact absurd h (by simp)

theorem MediaService.parse_confidence_bounds_twoDecimal (r : MediaService.MSResult) :
    0 ≤ (MediaService.parseRealityDefenderResponse r).confidence_score ∧
    (MediaService.parseRealityDefenderResponse r).confidence_score ≤ 100 ∧
    TwoDecimal (MediaService.parseRealityDefenderResponse r).confidence_score := by
  have key : ∃ q, (MediaService.parseRealityDefenderResponse r).confidence_score =
      clamp100 q ∧ TwoDecimal q := by
    cases hch : MediaService.chainConfidence r with
    | some c =>
      refine ⟨c, ?_, MediaService.chain_twoDecimal r c hch⟩
      unfold MediaService.parseRealityDefenderResponse
      simp [hch]
    | none =>
      cases hcl : r.classification with
      | none =>
        refine ⟨50, ?_, ⟨5000, by norm_num⟩⟩
        unfold MediaService.parseRealityDefenderResponse
        simp [hch, hcl]
      | some cls =>
        by_cases hr : isRealVocab cls = true
        · refine ⟨85, ?_, ⟨8500, by norm_num⟩⟩
          unfold MediaService.parseRealityDefenderResponse
          simp [hch, hcl, hr]
        · by_cases hf : isFakeVocab cls = true
          · refine ⟨25, ?_, ⟨2500, by norm_num⟩⟩
            unfold MediaService.parseRealityDefenderResponse
            simp [hch, hcl, hr, hf]
          · refine ⟨60, ?_, ⟨6000, by norm_num⟩⟩
            unfold MediaService.parseRealityDefenderResponse
            simp [hch, hcl, hr, hf]
  obtain ⟨q, hq, htd⟩ := key
  rw [hq]
  exact ⟨(clamp100_mem q).1, (clamp100_mem q).2, clamp100_twoDecimal htd⟩

theorem MediaService.extract_twoDecimal_and_bounds (r : MediaService.MSResult) :
    ∀ det, MediaService.extractManipulationDetails r = some det →
      (TwoDecimal det.face_manipulation ∧ TwoDecimal det.background_manipulation ∧
       TwoDecimal det.lighting_inconsistencies ∧ TwoDecimal det.compression_artifacts ∧
       TwoDecimal det.overall_score) ∧
      (MSDataInRange (MediaService.resultData r) →
        (0 ≤ det.face_manipulation ∧ det.face_manipulation ≤ 100) ∧
        (0 ≤ det.background_manipulation ∧ det.background_manipulation ≤ 100) ∧
        (0 ≤ det.lighting_inconsistencies ∧ det.lighting_inconsistencies ≤ 100) ∧
        (0 ≤ det.compression_artifacts ∧ det.compression_artifacts ≤ 100) ∧
        (0 ≤ det.overall_score ∧ det.overall_score ≤ 100)) := by
  intro det hdet
  unfold MediaService.extractManipulationDetails at hdet
  have hd := Option.some.inj hdet
  subst hd
  constructor
  · refine ⟨convOrZero_twoDecimal _, convOrZero_twoDecimal _, convOrZero_twoDecimal _,
      convOrZero_twoDecimal _, ?_⟩
    dsimp only
    split_ifs
    · exact round2_twoDecimal _
    · exact ⟨0, by norm_num⟩
  · intro hrange
    obtain ⟨hfa, hba, hli, hco⟩ := hrange
    have Hf := convOrZero_bounds _ hfa
    have Hb := convOrZero_bounds _ hba
    have Hl := convOrZero_bounds _ hli
    have Hc := convOrZero_bounds _ hco
    refine ⟨Hf, Hb, Hl, Hc, ?_⟩
    dsimp only
    have hmem : ∀ x ∈ ([MediaService.convOrZero (MediaService.resultData r).faceManipulation,
        MediaService.convOrZero (MediaService.resultData r).backgroundManipulation,
        MediaService.convOrZero (MediaService.resultData r).lightingInconsistencies,
        MediaService.convOrZero (MediaService.resultData r).compressionArtifacts] :
          List ℚ).filter (fun s => decide (0 < s)),
        0 ≤ x ∧ x ≤ 100 := by
      intro x hx
      rw [List.mem_filter] at hx
      obtain ⟨hxs, hxp⟩ := hx
      have hx0 : 0 < x := of_decide_eq_true hxp
      have hx100 : x ≤ 100 := by
        simp only [List.mem_cons, List.mem_singleton] at hxs
        rcases hxs with rfl | rfl | rfl | rfl | h
        · exact Hf.2
        · exact Hb.2
        · exact Hl.2
        · exact Hc.2
        · cases h
      exact ⟨hx0.le, hx100⟩
    split_ifs with hlen
    · set L := ([MediaService.convOrZero (MediaService.resultData r).faceManipulation,
        MediaService.convOrZero (MediaService.resultData r).backgroundManipulation,
        MediaService.convOrZero (MediaService.resultData r).lightingInconsistencies,
        MediaService.convOrZero (MediaService.resultData r).compressionArtifacts] :
          List ℚ).filter (fun s => decide (0 < s)) with hL
      have h1 : 0 ≤ L.foldl (fun a b => a + b) 0 :=
        foldl_add_nonneg L 0 (fun x hx => (hmem x hx).1) le_rfl
      have h2 : L.foldl (fun a b => a + b) 0 ≤ (0 : ℚ) + 100 * (L.length : ℚ) :=
        foldl_add_le L 0 (fun x hx => (hmem x hx).2)
      have hlenQ : (0:ℚ) < L.length := by exact_mod_cast hlen
      constructor
      · exact round2_nonneg (div_nonneg h1 hlenQ.le)
      · refine round2_le_100 ?_
        rw [div_le_iff₀ hlenQ]
        linarith
    · norm_num

/-- C7 (amended): the confidence score of the MediaService normalizer is
always clamped to [0,100] and has two decimals; the manipulation
sub-scores and the aggregate have two decimals but are NOT clamped — they
lie in [0,100] only when the corresponding payload fractions lie in
[0,1] (an out-of-range fraction propagates, see the counterexample). -/
theorem C7_clamp_and_round (r : MediaService.MSResult) :
    (0 ≤ (MediaService.parseRealityDefenderResponse r).confidence_score ∧
     (MediaService.parseRealityDefenderResponse r).confidence_score ≤ 100 ∧
     TwoDecimal (MediaService.parseRealityDefenderResponse r).confidence_score) ∧
    (∀ det, MediaService.extractManipulationDetails r = some det →
      (TwoDecimal det.face_manipulation ∧ TwoDecimal det.background_manipulation ∧
       TwoDecimal det.lighting_inconsistencies ∧ TwoDecimal det.compression_artifacts ∧
       TwoDecimal det.overall_score) ∧
      (MSDataInRange (MediaService.resultData r) →
        (0 ≤ det.face_manipulation ∧ det.face_manipulation ≤ 100) ∧
        (0 ≤ det.background_manipulation ∧ det.background_manipulation ≤ 100) ∧
        (0 ≤ det.lighting_inconsistencies ∧ det.lighting_inconsistencies ≤ 100) ∧
        (0 ≤ det.compression_artifacts ∧ det.compression_artifacts ≤ 100) ∧
        (0 ≤ det.overall_score ∧ det.overall_score ≤ 100))) :=
  ⟨MediaService.parse_confidence_bounds_twoDecimal r,
   MediaService.extract_twoDecimal_and_bounds r⟩

/-- C7 counterexample: the sub-scores are not clamped — a payload with
`face_manipulation = 2` (outside [0,1]) yields sub-score 200 > 100. -/
theorem C7_counterexample :
    ((MediaService.extractManipulationDetails { top := { faceManipulation := some 2 } }).map
      (fun det => det.face_manipulation) = some 200) ∧ (100 : ℚ) < 200 := by
  refine ⟨?_, by norm_num⟩
  unfold MediaService.extractManipulationDetails
  simp [MediaService.resultData, MediaService.convOrZero]
  rw [show (2 * 100 : ℚ) = ((200:ℕ):ℚ) by norm_num, round2_natCast]
  norm_num

/-- Payload for the C7 witness: a face sub-score of 0.5. -/
def r7 : MediaService.MSResult := { top := { faceManipulation := some (1/2) } }

/-- The detail record `extractManipulationDetails` produces for `r7`. -/
def det7 : ManipulationDetails :=
  { overall_score := 50, face_manipulation := 50, background_manipulation := 0,
    lighting_inconsistencies := 0, compression_artifacts := 0 }

theorem extract_r7 : MediaService.extractManipulationDetails r7 = some det7 := by
  have h50n : round2 (50 : ℚ) = 50 := by
    rw [show (50 : ℚ) = ((50 : ℕ) : ℚ) by norm_num, round2_natCast]
  have h50i : round2 ((2:ℚ)⁻¹ * 100) = 50 := by
    rw [show ((2:ℚ)⁻¹ * 100) = ((50 : ℕ) : ℚ) by norm_num, round2_natCast]
    norm_num
  unfold MediaService.extractManipulationDetails r7 det7
  simp [MediaService.resultData, MediaService.convOrZero, h50n, h50i,
    List.filter_cons, decide_zero_lt_zero_rat,
    decide_eq_true (by norm_num : (0:ℚ) < 50), List.foldl]

/-- Witness for the amended C7 theorem at the payload `r7`: all detail
outputs have two decimals and lie in [0,100]. -/
theorem C7_witness :
    (TwoDecimal det7.face_manipulation ∧ TwoDecimal det7.background_manipulation ∧
     TwoDecimal det7.lighting_inconsistencies ∧ TwoDecimal det7.compression_artifacts ∧
     TwoDecimal det7.overall_score) ∧
    ((0 ≤ det7.face_manipulation ∧ det7.face_manipulation ≤ 100) ∧
     (0 ≤ det7.background_manipulation ∧ det7.background_manipulation ≤ 100) ∧
     (0 ≤ det7.lighting_inconsistencies ∧ det7.lighting_inconsistencies ≤ 100) ∧
     (0 ≤ det7.compression_artifacts ∧ det7.compression_artifacts ≤ 100) ∧
     (0 ≤ det7.overall_score ∧ det7.overall_score ≤ 100)) := by
  have h := (C7_clamp_and_round r7).2 det7 extract_r7
  refine ⟨h.1, h.2 ?_⟩
  refine ⟨?_, ?_, ?_, ?_⟩
  · intro v hv
    cases hv
    norm_num
  · intro v hv
    exact Option.noConfusion hv
  · intro v hv
    exact Option.noConfusion hv
  · intro v hv
    exact Option.noConfusion hv

/-- With a results endpoint that always fails, the polling loop runs its
full fuel and throws the 10-attempt error. -/
theorem pollLoop_all_fail (pollOk pollComplete : ℕ → Bool)
    (pollResponse : ℕ → MediaService.MSResult)
    (hfail : ∀ n, pollOk n = false) :
    ∀ fuel attempt, attempt + fuel = MediaService.maxAttempts + 1 → 1 ≤ fuel →
      MediaService.pollLoop pollOk pollComplete pollResponse attempt fuel =
        (fuel, .threw "Failed to get results after 10 attempts") := by
  have hM : MediaService.maxAttempts = 10 := rfl
  intro fuel
  induction fuel with
  | zero => intro attempt _ h; omega
  | succ f ih =>
    intro attempt hsum _
    rw [hM] at hsum
    by_cases ha : attempt = MediaService.maxAttempts
    · have hf0 : f = 0 := by rw [hM] at ha; omega
      subst hf0
      simp only [MediaService.pollLoop, hfail, ha]
      simp
    · simp only [MediaService.pollLoop, hfail, ha]
      simp only [Bool.false_eq_true, if_false, if_true]
      have hf1 : 1 ≤ f := by
        rw [hM] at ha
        omega
      rw [ih (attempt + 1) (by rw [hM]; omega) hf1]

/-- C5 (amended): when every polling request fails (after a successful
signed-URL request and upload), the Detector Client makes exactly
`maxAttempts = 10` polling attempts — a hardcoded constant, not the
configured `MAX_RETRIES + 1 = 4` — and then returns
`createDefaultResult("suspicious", 0.5, message)` instead of throwing:
the result carries the triggering error message in `error` but no
`fallback` flag. -/
theorem C5_poll_exhaustion_default (fileUrl fileType : String)
    (cfg : MediaService.ApiKeyConfig) (net : MediaService.NetOracle)
    (h1 : cfg.apiKeyPresent = true) (h2 : cfg.apiKeyValid = true)
    (h3 : net.imageFetchOk = true) (h4 : net.signedUrlOk = true)
    (h5 : net.signedUrlValid = true) (h6 : net.uploadOk = true)
    (h7 : net.mediaIdPresent = true)
    (hfail : ∀ n, net.pollOk n = false) :
    MediaService.performRealityDefenderDetection fileUrl fileType cfg net =
      (2 + MediaService.maxAttempts,
        MediaService.createDefaultResult .suspicious 0.5
          "Failed to get results after 10 attempts") ∧
    (MediaService.performRealityDefenderDetection fileUrl fileType cfg net).2.error =
      some "Failed to get results after 10 attempts" ∧
    (MediaService.performRealityDefenderDetection fileUrl fileType cfg net).2.fallback =
      none ∧
    MediaService.maxAttempts = 10 ∧ API_CONFIG.REALITY_DEFENDER.MAX_RETRIES = 3 := by
  have hp := pollLoop_all_fail net.pollOk net.pollComplete net.pollResponse hfail
    MediaService.maxAttempts 1 (by omega) (by norm_num [MediaService.maxAttempts])
  have hmain : MediaService.performRealityDefenderDetection fileUrl fileType cfg net =
      (2 + MediaService.maxAttempts,
        MediaService.createDefaultResult .suspicious 0.5
          "Failed to get results after 10 attempts") := by
    unfold MediaService.performRealityDefenderDetection
    simp [h1, h2, h3, h4, h5, h6, h7, hp]
  refine ⟨hmain, ?_, ?_, rfl, rfl⟩
  · rw [hmain]
    rfl
  · rw [hmain]
    rfl

/-- A network oracle on which everything up to polling succeeds and every
polling request fails. -/
def netPollFail : MediaService.NetOracle :=
  { imageFetchOk := true, signedUrlOk := true, signedUrlValid := true, uploadOk := true,
    mediaIdPresent := true, pollOk := fun _ => false, pollComplete := fun _ => false,
    pollResponse := fun _ => {} }

/-- Witness for the amended C5 theorem on the always-failing oracle. -/
theorem C5_witness :
    MediaService.performRealityDefenderDetection "https://example.com/f" "image/png"
        cfgOk netPollFail =
      (2 + MediaService.maxAttempts,
        MediaService.createDefaultResult .suspicious 0.5
          "Failed to get results after 10 attempts") ∧
    (MediaService.performRealityDefenderDetection "https://example.com/f" "image/png"
        cfgOk netPollFail).2.error = some "Failed to get results after 10 attempts" ∧
    (MediaService.performRealityDefenderDetection "https://example.com/f" "image/png"
        cfgOk netPollFail).2.fallback = none ∧
    MediaService.maxAttempts = 10 ∧ API_CONFIG.REALITY_DEFENDER.MAX_RETRIES = 3 :=
  C5_poll_exhaustion_default "https://example.com/f" "image/png" cfgOk netPollFail
    rfl rfl rfl rfl rfl rfl rfl (fun _ => rfl)

/-- C5 counterexample: with the always-failing polling endpoint the
client makes 12 provider requests in total (2 setup + 10 polls), not
`MAX_RETRIES + 1 = 4` of them, and the returned default result has no
`fallback` key at all (so its flag cannot equal `true`). -/
theorem C5_counterexample :
    (MediaService.performRealityDefenderDetection "https://example.com/f" "image/png"
        cfgOk netPollFail).1 = 12 ∧
    API_CONFIG.REALITY_DEFENDER.MAX_RETRIES + 1 = 4 ∧
    API_CONFIG.REALITY_DEFENDER.MAX_RETRIES + 1 <
      (MediaService.performRealityDefenderDetection "https://example.com/f" "image/png"
        cfgOk netPollFail).1 ∧
    (MediaService.performRealityDefenderDetection "https://example.com/f" "image/png"
        cfgOk netPollFail).2.fallback = none := by
  refine ⟨rfl, rfl, ?_, rfl⟩
  rw [show (MediaService.performRealityDefenderDetection "https://example.com/f" "image/png"
      cfgOk netPollFail).1 = 12 from rfl]
  rw [show API_CONFIG.REALITY_DEFENDER.MAX_RETRIES + 1 = 4 from rfl]
  omega
